import Mathlib

/-!
Verification development for the KuduGrab screen-capture utility
(KuduGrab.py).  The definitions below are a shallow embedding of the
capture-orchestration and compositing core: selection normalization,
the per-screen compositing loop of ScreenCaptureApp.finish_capture and
ScreenCaptureApp.capture_from_coordinates, the session state
transitions (finish_capture, keyPressEvent Escape, mouseReleaseEvent,
_create_overlays, start_rapid_capture), and the fixed-location
file-naming loop.  Coordinates are integers (Qt QPoint/QRect are
integer based); pixel buffers are total functions over the integers.
-/

namespace KuduGrab

/-- QPoint: a point in global (virtual-desktop) coordinates. -/
structure Pt where
  x : Int
  y : Int
deriving DecidableEq, Repr

/-- QPoint.isNull: true exactly when both coordinates are zero. -/
def Pt.isNull (p : Pt) : Bool :=
  p.x == 0 && p.y == 0

/-- QRect: origin plus size, integer coordinates. -/
structure Rect where
  x : Int
  y : Int
  w : Int
  h : Int
deriving DecidableEq, Repr

/-- QRect.isEmpty: width or height is not positive. -/
def Rect.isEmpty (r : Rect) : Bool :=
  decide (r.w ≤ 0) || decide (r.h ≤ 0)

/-- QRect.intersected: the axis-aligned intersection.  When the two
rectangles are disjoint the resulting width or height is not positive,
so the result is isEmpty, matching how the program only uses the
intersection after an isEmpty test. -/
def Rect.intersected (a b : Rect) : Rect :=
  let x1 := max a.x b.x
  let y1 := max a.y b.y
  let x2 := min (a.x + a.w) (b.x + b.w)
  let y2 := min (a.y + a.h) (b.y + b.h)
  ⟨x1, y1, x2 - x1, y2 - y1⟩

/-- Membership of a point in a rectangle (half-open on each axis). -/
def Rect.containsPt (r : Rect) (X Y : Int) : Prop :=
  r.x ≤ X ∧ X < r.x + r.w ∧ r.y ≤ Y ∧ Y < r.y + r.h

/-- A monitor framebuffer snapshot (QPixmap from screen.grabWindow):
a width, a height, and the pixel at each coordinate. -/
structure Buffer where
  width : Int
  height : Int
  pix : Int → Int → Nat

/-- The composited output image: a pixel (some value) or transparent
(none) at every integer coordinate of the selection-local plane. -/
def Image : Type := Int → Int → Option Nat

/-- The fully transparent image (QPixmap filled with Qt.transparent). -/
def transparentImage : Image := fun _ _ => none

/-- One monitor as seen by the compositing loop: its geometry in
global coordinates and its snapshot (none models a null pixmap). -/
structure Screen where
  geometry : Rect
  buffer : Option Buffer

/-- painter.drawPixmap(dx, dy, buf, sx, sy, w, h): copy the w-by-h
block of buf starting at (sx, sy) onto the image at (dx, dy). -/
def blit (img : Image) (buf : Buffer) (dx dy sx sy w h : Int) : Image :=
  fun px py =>
    if dx ≤ px ∧ px < dx + w ∧ dy ≤ py ∧ py < dy + h then
      some (buf.pix (sx + (px - dx)) (sy + (py - dy)))
    else img px py

/-- The source-coordinate validation performed before each blit:
src nonnegative and src plus the overlap size within buffer bounds
(KuduGrab.py lines 617-619 and 315-317). -/
def srcValid (buf : Buffer) (sx sy w h : Int) : Prop :=
  0 ≤ sx ∧ 0 ≤ sy ∧ sx + w ≤ buf.width ∧ sy + h ≤ buf.height

instance (buf : Buffer) (sx sy w h : Int) : Decidable (srcValid buf sx sy w h) := by
  unfold srcValid; infer_instance

/-- One iteration of the per-screen compositing loop (KuduGrab.py
lines 595-625 and 297-323): skip a null pixmap, intersect the
selection rectangle with the screen geometry, skip an empty overlap,
validate source coordinates, and blit on success. -/
def compositeStep (rect : Rect) (img : Image) (s : Screen) : Image :=
  match s.buffer with
  | none => img
  | some buf =>
    let overlap := rect.intersected s.geometry
    if overlap.isEmpty then img
    else
      let sx := overlap.x - s.geometry.x
      let sy := overlap.y - s.geometry.y
      let dx := overlap.x - rect.x
      let dy := overlap.y - rect.y
      if srcValid buf sx sy overlap.w overlap.h then
        blit img buf dx dy sx sy overlap.w overlap.h
      else img

/-- The full compositing loop: fold the per-screen step over the
screen list, starting from a transparent image. -/
def compose (rect : Rect) (screens : List Screen) : Image :=
  screens.foldl (compositeStep rect) transparentImage

/-- The selection rectangle computed by capture_from_coordinates
(KuduGrab.py lines 266-272): independent min and max per axis. -/
def directRect (b e : Pt) : Rect :=
  let x1 := min b.x e.x
  let y1 := min b.y e.y
  let x2 := max b.x e.x
  let y2 := max b.y e.y
  ⟨x1, y1, x2 - x1, y2 - y1⟩

/-- The selection rectangle computed by finish_capture (KuduGrab.py
lines 565-576), including the post-normalization override of y2 when
the end point is above the begin point (lines 571-573). -/
def finishRect (b e : Pt) : Rect :=
  let x1 := min b.x e.x
  let y1 := min b.y e.y
  let x2 := max b.x e.x
  let y2 := max b.y e.y
  let y2A := if e.y < b.y then e.y else y2
  ⟨x1, y1, x2 - x1, y2A - y1⟩

/-- The specification's normalization (spec section 3, Selection):
x1 = min of the x coordinates, y1 = min of the y coordinates,
x2 = max of the x coordinates, y2 = max of the y coordinates. -/
def specRect (b e : Pt) : Rect :=
  ⟨min b.x e.x, min b.y e.y,
   max b.x e.x - min b.x e.x, max b.y e.y - min b.y e.y⟩

/-- The capture_mode field values assigned or tested by the program. -/
inductive CaptureMode where
  | freehand
  | fixed
  | rapid
deriving DecidableEq, Repr

/-- The output_mode field values. -/
inductive OutputMode where
  | clipboard
  | fixedLocation
  | newLocation
deriving DecidableEq, Repr

/-- A delivery to an output sink, recording the routing decision of
the output-mode dispatch together with the naming parameters used for
file outputs. -/
inductive Delivery where
  | clipboard (img : Image)
  | fixedLocation (x1 y1 w h : Int) (img : Image)
  | promptLocation (x1 y1 w h : Int) (img : Image)

/-- The ScreenCaptureApp fields touched by the capture-session logic.
Overlays are tracked by index; screenshots is the list built by
_create_overlays, in screen order. -/
structure AppState where
  last_capture_begin : Option Pt
  last_capture_end : Option Pt
  last_capture_pixmap : Option Image
  global_begin : Pt
  global_end : Pt
  is_capturing : Bool
  capture_mode : Option CaptureMode
  output_mode : OutputMode
  overlays : List Nat
  screenshots : List Screen
  is_overlay_operation_in_progress : Bool
  main_window_visible : Bool

/-- ScreenCaptureApp._cleanup_overlays (KuduGrab.py lines 462-498):
close every overlay, clear the overlays list and the screenshots
dictionary, and reset is_capturing unless the mode is rapid. -/
def cleanupOverlays (st : AppState) : AppState :=
  { st with
    overlays := []
    screenshots := []
    is_capturing :=
      if st.is_capturing = true ∧ st.capture_mode ≠ some CaptureMode.rapid then
        false
      else st.is_capturing }

/-- The outcome of a run of finish_capture: the resulting state,
whether the compositing loop ran, and what was routed to an output
sink. -/
structure FinishResult where
  state : AppState
  composited : Bool
  delivered : Option Delivery

/-- ScreenCaptureApp.finish_capture (KuduGrab.py lines 549-689):
abort when an endpoint is null; otherwise store the endpoints into
last_capture_begin and last_capture_end, normalize (with the y2
override of lines 571-573), and when both dimensions exceed 10
composite the screenshot list, store the result as
last_capture_pixmap, and route it per the output mode; in every
non-null case clean up overlays, reset the capture state, clear the
busy flag, and show the main window. -/
def finishCapture (st : AppState) : FinishResult :=
  if st.global_begin.isNull || st.global_end.isNull then
    let st1 := { st with is_overlay_operation_in_progress := false }
    let st2 := cleanupOverlays st1
    { state := { st2 with main_window_visible := true }
      composited := false
      delivered := none }
  else
    let st1 := { st with
      last_capture_begin := some st.global_begin
      last_capture_end := some st.global_end }
    let r := finishRect st.global_begin st.global_end
    if 10 < r.w ∧ 10 < r.h then
      let img := compose r st.screenshots
      let st2 := { st1 with last_capture_pixmap := some img }
      let d : Delivery :=
        match st.output_mode with
        | OutputMode.clipboard => Delivery.clipboard img
        | OutputMode.fixedLocation => Delivery.fixedLocation r.x r.y r.w r.h img
        | OutputMode.newLocation => Delivery.promptLocation r.x r.y r.w r.h img
      let st3 := cleanupOverlays st2
      { state := { st3 with
          is_capturing := false
          global_begin := ⟨0, 0⟩
          global_end := ⟨0, 0⟩
          is_overlay_operation_in_progress := false
          main_window_visible := true }
        composited := true
        delivered := some d }
    else
      let st2 := cleanupOverlays st1
      { state := { st2 with
          is_capturing := false
          global_begin := ⟨0, 0⟩
          global_end := ⟨0, 0⟩
          is_overlay_operation_in_progress := false
          main_window_visible := true }
        composited := false
        delivered := none }

/-- OverlayWidget.keyPressEvent for the Escape key (KuduGrab.py lines
1075-1091): when a capture is active, clean up overlays, clear
is_capturing and the busy flag, and show the main window. -/
def escapeKey (st : AppState) : AppState :=
  if st.is_capturing then
    let st1 := cleanupOverlays st
    { st1 with
      is_capturing := false
      is_overlay_operation_in_progress := false
      main_window_visible := true }
  else st

/-- OverlayWidget.mouseReleaseEvent, freehand branch with an active
drag (KuduGrab.py lines 1042-1068): record the release position as
global_end; when either absolute dimension is below 10, clear the busy
flag, clean up overlays and show the main window without finishing;
otherwise run finish_capture. -/
def mouseReleaseFreehand (st : AppState) (pos : Pt) : FinishResult :=
  if st.is_capturing then
    let st1 := { st with global_end := pos }
    let w := (st1.global_end.x - st1.global_begin.x).natAbs
    let h := (st1.global_end.y - st1.global_begin.y).natAbs
    if w < 10 ∨ h < 10 then
      let st2 := { st1 with is_overlay_operation_in_progress := false }
      let st3 := cleanupOverlays st2
      { state := { st3 with main_window_visible := true }
        composited := false
        delivered := none }
    else finishCapture st1
  else { state := st, composited := false, delivered := none }

/-- The per-screen loop of ScreenCaptureApp._create_overlays
(KuduGrab.py lines 509-538).  failAt models the screen index at which
overlay construction raises: the except handler (lines 534-538) clears
the busy flag and shows the main window but does not clean up the
overlays created so far. -/
def createOverlaysGo (st : AppState) (screens : List Screen)
    (failAt : Option Nat) (i : Nat) : AppState :=
  match screens with
  | [] => { st with is_capturing := true }
  | s :: rest =>
    if failAt = some i then
      { st with
        is_overlay_operation_in_progress := false
        main_window_visible := true }
    else
      createOverlaysGo
        { st with
          overlays := st.overlays ++ [i]
          screenshots := st.screenshots ++ [s] }
        rest failAt (i + 1)

/-- ScreenCaptureApp._create_overlays (KuduGrab.py lines 500-538):
clean up any existing overlays, reset the collections, then create one
overlay and take one snapshot per screen; on success set is_capturing. -/
def createOverlays (st : AppState) (screens : List Screen)
    (failAt : Option Nat) : AppState :=
  let st1 := cleanupOverlays st
  let st2 := { st1 with overlays := [], screenshots := [] }
  createOverlaysGo st2 screens failAt 0

/-- The outcome of capture_from_coordinates: the normalized rectangle,
whether compositing ran, and what was delivered. -/
structure DirectResult where
  rect : Rect
  composited : Bool
  delivered : Option Delivery

/-- ScreenCaptureApp.capture_from_coordinates (KuduGrab.py lines
260-359): normalize with independent min and max per axis, and when
both dimensions exceed 10 composite freshly grabbed screens and route
the image per the output mode. -/
def captureFromCoordinates (b e : Pt) (freshScreens : List Screen)
    (mode : OutputMode) : DirectResult :=
  let r := directRect b e
  if 10 < r.w ∧ 10 < r.h then
    let img := compose r freshScreens
    let d : Delivery :=
      match mode with
      | OutputMode.clipboard => Delivery.clipboard img
      | OutputMode.fixedLocation => Delivery.fixedLocation r.x r.y r.w r.h img
      | OutputMode.newLocation => Delivery.promptLocation r.x r.y r.w r.h img
    ⟨r, true, some d⟩
  else ⟨r, false, none⟩

/-- The outcome of start_rapid_capture: the updated state, the
coordinate pair handed to capture_from_coordinates (none when the
guard or the missing-previous-capture check returns early), and the
counts of overlay surfaces created and deferred callbacks scheduled
on this path. -/
structure RapidResult where
  state : AppState
  fedCoords : Option (Pt × Pt)
  overlaysCreated : Nat
  deferralsScheduled : Nat
  capture : Option DirectResult

/-- ScreenCaptureApp.start_rapid_capture (KuduGrab.py lines 236-258):
return early when the busy guard is set or no previous capture exists;
otherwise copy the last capture endpoints into global_begin and
global_end and call capture_from_coordinates directly, creating no
overlay and scheduling no deferral. -/
def startRapidCapture (st : AppState) (freshScreens : List Screen) :
    RapidResult :=
  if st.is_overlay_operation_in_progress then
    ⟨st, none, 0, 0, none⟩
  else
    match st.last_capture_begin, st.last_capture_end with
    | some b, some e =>
      let st1 := { st with global_begin := b, global_end := e }
      ⟨st1, some (b, e), 0, 0,
        some (captureFromCoordinates b e freshScreens st.output_mode)⟩
    | _, _ => ⟨st, none, 0, 0, none⟩

/-- OverlayWidget.mousePressEvent, fixed branch (KuduGrab.py lines
982-1002): the global_begin produced by a click at clickGlobal on a
screen with the given origin, for a fixed capture of size w by h
(top-left of the centered rectangle, converted back to global
coordinates). -/
def fixedPressGlobalBegin (clickGlobal : Pt) (screenOrigin : Pt)
    (w h : Int) : Pt :=
  let lx := clickGlobal.x - screenOrigin.x
  let ly := clickGlobal.y - screenOrigin.y
  ⟨lx - Int.fdiv w 2 + screenOrigin.x, ly - Int.fdiv h 2 + screenOrigin.y⟩

/-- The base file name of the fixed-location save path (KuduGrab.py
line 638): capture_x_y_wxh.png. -/
def captureBaseName (x y w h : Int) : String :=
  "capture_" ++ toString x ++ "_" ++ toString y ++ "_" ++
    toString w ++ "x" ++ toString h ++ ".png"

/-- The collision file name with counter suffix (KuduGrab.py line
642): capture_x_y_wxh_c.png. -/
def captureNumberedName (x y w h : Int) (c : Nat) : String :=
  "capture_" ++ toString x ++ "_" ++ toString y ++ "_" ++
    toString w ++ "x" ++ toString h ++ "_" ++ toString c ++ ".png"

/-- The sequence of names tried by the collision loop: the base name
first, then the counter names starting at 1. -/
def candidateName (x y w h : Int) : Nat → String
  | 0 => captureBaseName x y w h
  | n + 1 => captureNumberedName x y w h (n + 1)

/-- The while loop of KuduGrab.py lines 640-644, fuel-bounded: keep
advancing the counter while the current candidate name exists. -/
def fixedSaveNameAux (ex : String → Bool) (x y w h : Int) :
    Nat → Nat → String
  | 0, c => candidateName x y w h c
  | fuel + 1, c =>
    if ex (candidateName x y w h c) then
      fixedSaveNameAux ex x y w h fuel (c + 1)
    else candidateName x y w h c

/-- The name under which the fixed-location save writes, given the
existing-file predicate ex. -/
def fixedSaveName (ex : String → Bool) (x y w h : Int) (fuel : Nat) :
    String :=
  fixedSaveNameAux ex x y w h fuel 0

/-- Analysis predicate: compositeStep for screen s writes the output
pixel at (px, py): the screen has a buffer, a nonempty overlap with
the selection rectangle, valid source coordinates, and (px, py) lies
in the destination block of the blit. -/
def stepWrites (r : Rect) (s : Screen) (px py : Int) : Prop :=
  match s.buffer with
  | none => False
  | some buf =>
    let ov := r.intersected s.geometry
    ov.isEmpty = false ∧
    srcValid buf (ov.x - s.geometry.x) (ov.y - s.geometry.y) ov.w ov.h ∧
    ov.x - r.x ≤ px ∧ px < ov.x - r.x + ov.w ∧
    ov.y - r.y ≤ py ∧ py < ov.y - r.y + ov.h

/-- Analysis function: the pixel value compositeStep for screen s
writes at (px, py) when stepWrites holds. -/
def stepValue (r : Rect) (s : Screen) (px py : Int) : Option Nat :=
  match s.buffer with
  | none => none
  | some buf =>
    let ov := r.intersected s.geometry
    some (buf.pix
      ((ov.x - s.geometry.x) + (px - (ov.x - r.x)))
      ((ov.y - s.geometry.y) + (py - (ov.y - r.y))))

/-- A quiescent application state used as the base of the concrete
states below. -/
def baseState : AppState :=
  { last_capture_begin := none
    last_capture_end := none
    last_capture_pixmap := none
    global_begin := ⟨0, 0⟩
    global_end := ⟨0, 0⟩
    is_capturing := false
    capture_mode := none
    output_mode := OutputMode.clipboard
    overlays := []
    screenshots := []
    is_overlay_operation_in_progress := false
    main_window_visible := true }

/-- A state in the middle of a freehand session that already holds a
previous capture: the drag started at (1, 1) and a release at (11, 11)
will make a selection of normalized size 10 by 10. -/
def preReleaseState : AppState :=
  { baseState with
    last_capture_begin := some ⟨100, 100⟩
    last_capture_end := some ⟨200, 200⟩
    global_begin := ⟨1, 1⟩
    global_end := ⟨1, 1⟩
    is_capturing := true
    capture_mode := some CaptureMode.freehand
    overlays := [0]
    is_overlay_operation_in_progress := true
    main_window_visible := false }

/-- A state about to create overlays for a two-screen session. -/
def preCreateState : AppState :=
  { baseState with
    capture_mode := some CaptureMode.freehand
    is_overlay_operation_in_progress := true
    main_window_visible := false }

/-- An idle state holding a previous committed capture, from which a
rapid re-capture can start. -/
def rapidReadyState : AppState :=
  { baseState with
    last_capture_begin := some ⟨5, 5⟩
    last_capture_end := some ⟨105, 105⟩
    last_capture_pixmap := some transparentImage }

/-- A state in an active freehand session whose selection is too
small, with non-null endpoints. -/
def smallFinishState : AppState :=
  { baseState with
    last_capture_begin := some ⟨100, 100⟩
    last_capture_end := some ⟨200, 200⟩
    global_begin := ⟨1, 1⟩
    global_end := ⟨9, 9⟩
    is_capturing := true
    capture_mode := some CaptureMode.freehand
    overlays := [0]
    is_overlay_operation_in_progress := true
    main_window_visible := false }

/-- A state in an active fixed session whose global_begin is the
exact origin (0, 0) as a genuinely selected coordinate. -/
def nullBeginState : AppState :=
  { baseState with
    global_begin := ⟨0, 0⟩
    global_end := ⟨799, 599⟩
    is_capturing := true
    capture_mode := some CaptureMode.fixed
    overlays := [0]
    is_overlay_operation_in_progress := true
    main_window_visible := false }

/-- A concrete 100 by 100 buffer whose pixel values encode their
coordinates. -/
def sampleBuffer : Buffer :=
  ⟨100, 100, fun x y => (x + 100 * y).natAbs⟩

/-- A concrete screen at the global origin holding sampleBuffer. -/
def sampleScreen : Screen :=
  ⟨⟨0, 0, 100, 100⟩, some sampleBuffer⟩

/-- A second concrete screen to the right of sampleScreen, disjoint
from it. -/
def secondScreen : Screen :=
  ⟨⟨100, 0, 100, 100⟩, some ⟨100, 100, fun x y => (x + 100 * y).natAbs + 1⟩⟩

/-- A screen whose buffer is smaller than its geometry, so that the
source-coordinate validation fails for a large enough selection. -/
def shortBufferScreen : Screen :=
  ⟨⟨0, 0, 50, 50⟩, some ⟨10, 10, fun _ _ => 0⟩⟩

/-- A concrete selection rectangle inside sampleScreen. -/
def sampleRect : Rect := ⟨10, 10, 20, 20⟩

/-- A concrete selection rectangle spanning sampleScreen and
secondScreen. -/
def spanRect : Rect := ⟨50, 10, 100, 20⟩

/-- A concrete existing-file predicate: the base name and the first
counter name for the parameters 5, 5, 100, 100 are taken. -/
def takenNames : String → Bool := fun s =>
  s == captureBaseName 5 5 100 100 || s == captureNumberedName 5 5 100 100 1

/-! Helper lemmas. -/

/-- The width computed by finish_capture agrees with the
specification's normalized width. -/
theorem finishRect_w_eq (b e : Pt) : (finishRect b e).w = (specRect b e).w := rfl

/-- The height computed by finish_capture never exceeds the
specification's normalized height (the y2 override can only shrink
it). -/
theorem finishRect_h_le (b e : Pt) : (finishRect b e).h ≤ (specRect b e).h := by
  simp only [finishRect, specRect]
  split <;> omega

/-- When the specification's normalized rectangle is too small on
either axis, the size test of finish_capture fails. -/
theorem small_not_pass (b e : Pt)
    (h : (specRect b e).w ≤ 10 ∨ (specRect b e).h ≤ 10) :
    ¬(10 < (finishRect b e).w ∧ 10 < (finishRect b e).h) := by
  have hw := finishRect_w_eq b e
  have hh := finishRect_h_le b e
  rintro ⟨h1, h2⟩
  rcases h with h | h <;> omega

/-- Overlay cleanup leaves is_capturing false whenever the capture
mode is not rapid. -/
theorem cleanup_not_capturing (st : AppState)
    (hmode : st.capture_mode ≠ some CaptureMode.rapid) :
    (cleanupOverlays st).is_capturing = false := by
  cases hcap : st.is_capturing <;> simp [cleanupOverlays, hcap, hmode]

/-! Claim theorems. -/

/-- C1: for every pair of selection endpoints, the rectangle used by
finish_capture and by capture_from_coordinates is the per-axis min/max
normalization, with width the absolute x difference and height the
absolute y difference.  The capture_from_coordinates rectangle always
agrees with the specification, but the finish_capture rectangle does
not: with begin = (0, 20) and end = (30, 5) (the end point above the
begin point) the y2 override of KuduGrab.py lines 571-573 collapses
the height to 0 where the specification requires 15. -/
theorem C1_selection_normalization :
    (∀ b e : Pt, directRect b e = specRect b e ∧
      (specRect b e).w = |e.x - b.x| ∧ (specRect b e).h = |e.y - b.y|) ∧
    finishRect ⟨0, 20⟩ ⟨30, 5⟩ = ⟨0, 5, 30, 0⟩ ∧
    specRect ⟨0, 20⟩ ⟨30, 5⟩ = ⟨0, 5, 30, 15⟩ ∧
    finishRect ⟨0, 20⟩ ⟨30, 5⟩ ≠ specRect ⟨0, 20⟩ ⟨30, 5⟩ := by
  refine ⟨?_, by decide, by decide, by decide⟩
  intro b e
  refine ⟨rfl, ?_, ?_⟩
  · show max b.x e.x - min b.x e.x = |e.x - b.x|
    rw [max_sub_min_eq_abs, abs_sub_comm]
  · show max b.y e.y - min b.y e.y = |e.y - b.y|
    rw [max_sub_min_eq_abs, abs_sub_comm]

/-- C3: a selection whose normalized width or height is at most 10
produces no compositing and no delivery from finish_capture, tears
down overlays, and returns the application to the idle state; and
compositing only ever happens when both normalized dimensions exceed
10. -/
theorem C3_small_selection_no_output :
    (∀ st : AppState, st.capture_mode ≠ some CaptureMode.rapid →
      ((specRect st.global_begin st.global_end).w ≤ 10 ∨
        (specRect st.global_begin st.global_end).h ≤ 10) →
      (finishCapture st).composited = false ∧
      (finishCapture st).delivered = none ∧
      (finishCapture st).state.overlays = [] ∧
      (finishCapture st).state.is_overlay_operation_in_progress = false ∧
      (finishCapture st).state.is_capturing = false ∧
      (finishCapture st).state.main_window_visible = true) ∧
    (∀ st : AppState, (finishCapture st).composited = true →
      10 < (specRect st.global_begin st.global_end).w ∧
      10 < (specRect st.global_begin st.global_end).h) := by
  constructor
  · intro st hmode hsmall
    by_cases hnull : (st.global_begin.isNull || st.global_end.isNull) = true
    · simp only [finishCapture, hnull, if_true]
      refine ⟨?_, ?_, ?_, ?_, ?_, ?_⟩ <;>
        first
          | exact cleanup_not_capturing _ hmode
          | trivial
    · simp only [finishCapture]
      rw [if_neg hnull, if_neg (small_not_pass _ _ hsmall)]
      exact ⟨rfl, rfl, rfl, rfl, rfl, rfl⟩
  · intro st hcomp
    by_cases hnull : (st.global_begin.isNull || st.global_end.isNull) = true
    · rw [finishCapture.eq_def] at hcomp
      rw [if_pos hnull] at hcomp
      exact absurd hcomp (by simp)
    · by_cases hsize : 10 < (finishRect st.global_begin st.global_end).w ∧
        10 < (finishRect st.global_begin st.global_end).h
      · have hw := finishRect_w_eq st.global_begin st.global_end
        have hh := finishRect_h_le st.global_begin st.global_end
        exact ⟨by omega, by omega⟩
      · rw [finishCapture.eq_def] at hcomp
        rw [if_neg hnull, if_neg hsize] at hcomp
        exact absurd hcomp (by simp)

/-- C3 witness: finishing the concrete too-small session
smallFinishState composites nothing, delivers nothing, and returns to
idle. -/
theorem C3_small_selection_no_output_witness :
    (finishCapture smallFinishState).composited = false ∧
    (finishCapture smallFinishState).delivered = none ∧
    (finishCapture smallFinishState).state.overlays = [] ∧
    (finishCapture smallFinishState).state.is_overlay_operation_in_progress = false ∧
    (finishCapture smallFinishState).state.is_capturing = false ∧
    (finishCapture smallFinishState).state.main_window_visible = true :=
  C3_small_selection_no_output.1 smallFinishState (by decide) (by decide)

/-- C2 counterexample: the session released at (11, 11) from the drag
start (1, 1) has a normalized selection of width 10, so it is a
too-small session (width at most 10) that composites nothing, yet it
overwrites last_capture_begin — finish_capture stores the endpoints
(KuduGrab.py lines 561-562) before the size test (line 581), so the
stored LastCapture state is not identical to what it was before. -/
theorem C2_counterexample :
    (specRect ⟨1, 1⟩ ⟨11, 11⟩).w ≤ 10 ∧
    (mouseReleaseFreehand preReleaseState ⟨11, 11⟩).composited = false ∧
    (mouseReleaseFreehand preReleaseState ⟨11, 11⟩).delivered = none ∧
    preReleaseState.last_capture_begin = some ⟨100, 100⟩ ∧
    (mouseReleaseFreehand preReleaseState ⟨11, 11⟩).state.last_capture_begin =
      some ⟨1, 1⟩ ∧
    (mouseReleaseFreehand preReleaseState ⟨11, 11⟩).state.last_capture_begin ≠
      preReleaseState.last_capture_begin := by
  exact ⟨by decide, by decide, rfl, by decide, by decide, by decide⟩

/-- C2 amended: an Escape-cancelled session leaves all three
LastCapture fields unchanged; a too-small freehand release rejected
at the mouse-release handler leaves all three unchanged; any run of
finish_capture that does not composite leaves last_capture_pixmap
unchanged; but a too-small session that reaches finish_capture with
non-null endpoints overwrites last_capture_begin and last_capture_end
with the session's endpoints. -/
theorem C2_last_capture_preservation :
    (∀ st : AppState,
      (escapeKey st).last_capture_begin = st.last_capture_begin ∧
      (escapeKey st).last_capture_end = st.last_capture_end ∧
      (escapeKey st).last_capture_pixmap = st.last_capture_pixmap) ∧
    (∀ st : AppState, ∀ pos : Pt,
      ((pos.x - st.global_begin.x).natAbs < 10 ∨
        (pos.y - st.global_begin.y).natAbs < 10) →
      (mouseReleaseFreehand st pos).state.last_capture_begin = st.last_capture_begin ∧
      (mouseReleaseFreehand st pos).state.last_capture_end = st.last_capture_end ∧
      (mouseReleaseFreehand st pos).state.last_capture_pixmap = st.last_capture_pixmap) ∧
    (∀ st : AppState, (finishCapture st).composited = false →
      (finishCapture st).state.last_capture_pixmap = st.last_capture_pixmap) ∧
    (∀ st : AppState,
      st.global_begin.isNull = false → st.global_end.isNull = false →
      ((specRect st.global_begin st.global_end).w ≤ 10 ∨
        (specRect st.global_begin st.global_end).h ≤ 10) →
      (finishCapture st).state.last_capture_begin = some st.global_begin ∧
      (finishCapture st).state.last_capture_end = some st.global_end) := by
  refine ⟨?_, ?_, ?_, ?_⟩
  · intro st
    by_cases hcap : st.is_capturing = true
    · simp only [escapeKey, hcap, if_true]
      exact ⟨rfl, rfl, rfl⟩
    · simp only [escapeKey]
      rw [if_neg hcap]
      exact ⟨rfl, rfl, rfl⟩
  · intro st pos hsmall
    by_cases hcap : st.is_capturing = true
    · simp only [mouseReleaseFreehand, hcap, if_true]
      rw [if_pos hsmall]
      exact ⟨rfl, rfl, rfl⟩
    · simp only [mouseReleaseFreehand]
      rw [if_neg hcap]
      exact ⟨rfl, rfl, rfl⟩
  · intro st hcomp
    by_cases hnull : (st.global_begin.isNull || st.global_end.isNull) = true
    · rw [finishCapture.eq_def]
      rw [if_pos hnull]
      rfl
    · by_cases hsize : 10 < (finishRect st.global_begin st.global_end).w ∧
        10 < (finishRect st.global_begin st.global_end).h
      · rw [finishCapture.eq_def] at hcomp
        rw [if_neg hnull, if_pos hsize] at hcomp
        exact absurd hcomp (by simp)
      · rw [finishCapture.eq_def]
        rw [if_neg hnull, if_neg hsize]
        rfl
  · intro st hb he hsmall
    have hnull : ¬((st.global_begin.isNull || st.global_end.isNull) = true) := by
      simp [hb, he]
    rw [finishCapture.eq_def]
    rw [if_neg hnull, if_neg (small_not_pass _ _ hsmall)]
    exact ⟨rfl, rfl⟩

/-- C2 witness for the amended claim, at the concrete too-small state
smallFinishState. -/
theorem C2_last_capture_preservation_witness :
    (finishCapture smallFinishState).state.last_capture_begin =
      some smallFinishState.global_begin ∧
    (finishCapture smallFinishState).state.last_capture_end =
      some smallFinishState.global_end :=
  C2_last_capture_preservation.2.2.2 smallFinishState
    (by decide) (by decide) (by decide)

/-- Helper: when overlay creation fails at an index inside the screen
list, the per-screen loop ends with the busy flag cleared and the main
window visible (but, as the counterexample shows, without clearing the
overlays created so far). -/
theorem createOverlaysGo_fail (screens : List Screen) :
    ∀ (st : AppState) (i k : Nat), i ≤ k → k < i + screens.length →
      (createOverlaysGo st screens (some k) i).is_overlay_operation_in_progress = false ∧
      (createOverlaysGo st screens (some k) i).main_window_visible = true := by
  induction screens with
  | nil =>
    intro st i k h1 h2
    simp only [List.length_nil] at h2
    omega
  | cons s rest ih =>
    intro st i k h1 h2
    by_cases hik : k = i
    · subst hik
      simp only [createOverlaysGo, if_pos rfl]
      exact ⟨rfl, rfl⟩
    · simp only [createOverlaysGo]
      rw [if_neg (by simpa using fun h => hik h)]
      refine ih _ (i + 1) k (by omega) ?_
      simp only [List.length_cons] at h2
      omega

/-- C4 counterexample: with two screens and overlay construction
raising for the second one, the except handler of _create_overlays
(KuduGrab.py lines 534-538) clears the busy flag and shows the main
window but leaves the first overlay in the overlays list — the claim
that every exit path leaves the overlays list empty is false. -/
theorem C4_counterexample :
    (createOverlays preCreateState [sampleScreen, secondScreen] (some 1)).overlays = [0] ∧
    (createOverlays preCreateState [sampleScreen, secondScreen] (some 1)).overlays ≠ [] ∧
    (createOverlays preCreateState [sampleScreen, secondScreen]
      (some 1)).is_overlay_operation_in_progress = false ∧
    (createOverlays preCreateState [sampleScreen, secondScreen]
      (some 1)).main_window_visible = true := by
  refine ⟨rfl, by decide, rfl, rfl⟩

/-- C4 amended: on every modelled exit path the busy guard ends false
and the host window is shown again; the overlays list is emptied on
every run of finish_capture (successful, too-small or null-endpoint),
on Escape cancellation, and on a too-small mouse release, but an
overlay-creation failure partway through leaves the already-created
overlays in the list (they are only torn down at the start of the next
session). -/
theorem C4_guard_and_window_on_exit :
    (∀ st : AppState,
      (finishCapture st).state.overlays = [] ∧
      (finishCapture st).state.is_overlay_operation_in_progress = false ∧
      (finishCapture st).state.main_window_visible = true) ∧
    (∀ st : AppState, st.is_capturing = true →
      (escapeKey st).overlays = [] ∧
      (escapeKey st).is_overlay_operation_in_progress = false ∧
      (escapeKey st).main_window_visible = true) ∧
    (∀ st : AppState, ∀ pos : Pt, st.is_capturing = true →
      ((pos.x - st.global_begin.x).natAbs < 10 ∨
        (pos.y - st.global_begin.y).natAbs < 10) →
      (mouseReleaseFreehand st pos).state.overlays = [] ∧
      (mouseReleaseFreehand st pos).state.is_overlay_operation_in_progress = false ∧
      (mouseReleaseFreehand st pos).state.main_window_visible = true) ∧
    (∀ st : AppState, ∀ screens : List Screen, ∀ k : Nat,
      k < screens.length →
      (createOverlays st screens (some k)).is_overlay_operation_in_progress = false ∧
      (createOverlays st screens (some k)).main_window_visible = true) := by
  refine ⟨?_, ?_, ?_, ?_⟩
  · intro st
    by_cases hnull : (st.global_begin.isNull || st.global_end.isNull) = true
    · rw [finishCapture.eq_def, if_pos hnull]
      exact ⟨rfl, rfl, rfl⟩
    · rw [finishCapture.eq_def, if_neg hnull]
      by_cases hsize : 10 < (finishRect st.global_begin st.global_end).w ∧
        10 < (finishRect st.global_begin st.global_end).h
      · rw [if_pos hsize]
        exact ⟨rfl, rfl, rfl⟩
      · rw [if_neg hsize]
        exact ⟨rfl, rfl, rfl⟩
  · intro st hcap
    simp only [escapeKey, hcap, if_true]
    refine ⟨?_, ?_, ?_⟩ <;> trivial
  · intro st pos hcap hsmall
    simp only [mouseReleaseFreehand, hcap, if_true]
    rw [if_pos hsmall]
    refine ⟨?_, ?_, ?_⟩ <;> trivial
  · intro st screens k hk
    exact createOverlaysGo_fail screens _ 0 k (Nat.zero_le k) (by omega)

/-- C4 witness for the amended claim: a one-screen creation failure at
index 0 ends with the guard cleared and the window shown. -/
theorem C4_guard_and_window_on_exit_witness :
    (createOverlays baseState [sampleScreen] (some 0)).is_overlay_operation_in_progress = false ∧
    (createOverlays baseState [sampleScreen] (some 0)).main_window_visible = true :=
  C4_guard_and_window_on_exit.2.2.2 baseState [sampleScreen] 0 (by decide)

/-- C8: a rapid re-capture from a state holding a previous committed
capture hands exactly that begin/end pair to capture_from_coordinates,
creates no overlay surface, schedules no deferral, and the rectangle
fed to compositing is the per-axis normalization of that pair. -/
theorem C8_rapid_uses_last_capture (st : AppState) (screens : List Screen)
    (b e : Pt)
    (hbusy : st.is_overlay_operation_in_progress = false)
    (hb : st.last_capture_begin = some b)
    (he : st.last_capture_end = some e) :
    (startRapidCapture st screens).fedCoords = some (b, e) ∧
    (startRapidCapture st screens).overlaysCreated = 0 ∧
    (startRapidCapture st screens).deferralsScheduled = 0 ∧
    (startRapidCapture st screens).capture =
      some (captureFromCoordinates b e screens st.output_mode) ∧
    (captureFromCoordinates b e screens st.output_mode).rect = directRect b e := by
  have hrect : ∀ (m : OutputMode),
      (captureFromCoordinates b e screens m).rect = directRect b e := by
    intro m
    simp only [captureFromCoordinates]
    split <;> rfl
  simp only [startRapidCapture, hbusy, hb, he]
  exact ⟨rfl, rfl, rfl, rfl, hrect st.output_mode⟩

/-- C8 witness at the concrete state rapidReadyState. -/
theorem C8_rapid_uses_last_capture_witness :
    (startRapidCapture rapidReadyState [sampleScreen]).fedCoords =
      some (⟨5, 5⟩, ⟨105, 105⟩) ∧
    (startRapidCapture rapidReadyState [sampleScreen]).overlaysCreated = 0 ∧
    (startRapidCapture rapidReadyState [sampleScreen]).deferralsScheduled = 0 ∧
    (startRapidCapture rapidReadyState [sampleScreen]).capture =
      some (captureFromCoordinates ⟨5, 5⟩ ⟨105, 105⟩ [sampleScreen]
        rapidReadyState.output_mode) ∧
    (captureFromCoordinates ⟨5, 5⟩ ⟨105, 105⟩ [sampleScreen]
      rapidReadyState.output_mode).rect = directRect ⟨5, 5⟩ ⟨105, 105⟩ :=
  C8_rapid_uses_last_capture rapidReadyState [sampleScreen] ⟨5, 5⟩ ⟨105, 105⟩
    rfl rfl rfl

/-- C10: an endpoint equal to the exact origin (0, 0) is treated as
null by finish_capture, which then aborts without compositing and
without delivering any output — even though (0, 0) is reachable as a
genuinely selected coordinate, for example by a fixed-mode click at
(400, 300) on an origin screen with an 800 by 600 frame, whose
centered rectangle's top-left is exactly (0, 0). -/
theorem C10_null_endpoint_aborts :
    fixedPressGlobalBegin ⟨400, 300⟩ ⟨0, 0⟩ 800 600 = ⟨0, 0⟩ ∧
    (∀ st : AppState,
      (st.global_begin = ⟨0, 0⟩ ∨ st.global_end = ⟨0, 0⟩) →
      (finishCapture st).composited = false ∧
      (finishCapture st).delivered = none ∧
      (finishCapture st).state.overlays = [] ∧
      (finishCapture st).state.is_overlay_operation_in_progress = false ∧
      (finishCapture st).state.main_window_visible = true) := by
  refine ⟨by decide, ?_⟩
  intro st h
  have hnull : (st.global_begin.isNull || st.global_end.isNull) = true := by
    rcases h with h | h <;> rw [h] <;> simp [Pt.isNull]
  rw [finishCapture.eq_def, if_pos hnull]
  exact ⟨rfl, rfl, rfl, rfl, rfl⟩

/-- C10 witness at the concrete state nullBeginState, whose
global_begin is exactly the origin. -/
theorem C10_null_endpoint_aborts_witness :
    (finishCapture nullBeginState).composited = false ∧
    (finishCapture nullBeginState).delivered = none ∧
    (finishCapture nullBeginState).state.overlays = [] ∧
    (finishCapture nullBeginState).state.is_overlay_operation_in_progress = false ∧
    (finishCapture nullBeginState).state.main_window_visible = true :=
  C10_null_endpoint_aborts.2 nullBeginState (Or.inl rfl)

/-- Helper: starting the collision loop at counter c, when the first n
candidates from c are taken and candidate c + n is free, the loop
returns candidate c + n (given enough fuel). -/
theorem fixedSaveNameAux_finds (ex : String → Bool) (x y w h : Int) :
    ∀ n fuel c : Nat, n < fuel →
      (∀ m, m < n → ex (candidateName x y w h (c + m)) = true) →
      ex (candidateName x y w h (c + n)) = false →
      fixedSaveNameAux ex x y w h fuel c = candidateName x y w h (c + n) := by
  intro n
  induction n with
  | zero =>
    intro fuel c hfuel htaken hfree
    cases fuel with
    | zero => omega
    | succ f =>
      rw [Nat.add_zero] at hfree
      simp only [fixedSaveNameAux, hfree]
      rw [if_neg (by simp), Nat.add_zero]
  | succ n ih =>
    intro fuel c hfuel htaken hfree
    cases fuel with
    | zero => omega
    | succ f =>
      have h0 : ex (candidateName x y w h c) = true := by
        have := htaken 0 (Nat.succ_pos n)
        rwa [Nat.add_zero] at this
      simp only [fixedSaveNameAux, h0, if_true]
      have heq : c + (n + 1) = (c + 1) + n := by omega
      rw [heq]
      refine ih f (c + 1) (by omega) ?_ ?_
      · intro m hm
        have := htaken (m + 1) (by omega)
        have harith : c + (m + 1) = (c + 1) + m := by omega
        rwa [harith] at this
      · rwa [heq] at hfree

/-- C9: in fixed-location mode the save name is
capture_x_y_wxh.png; when names collide, suffixes _1, _2, and so on
are tried in increasing order starting at 1, and the file is written
under the first candidate not already present — a deterministic
function of the set of existing names. -/
theorem C9_fixed_location_naming (ex : String → Bool) (x y w h : Int)
    (n fuel : Nat) (hfuel : n < fuel)
    (htaken : ∀ m, m < n → ex (candidateName x y w h m) = true)
    (hfree : ex (candidateName x y w h n) = false) :
    fixedSaveName ex x y w h fuel = candidateName x y w h n ∧
    candidateName x y w h 0 = captureBaseName x y w h ∧
    (∀ c : Nat, candidateName x y w h (c + 1) =
      captureNumberedName x y w h (c + 1)) := by
  refine ⟨?_, rfl, fun c => rfl⟩
  have h1 : ∀ m, m < n → ex (candidateName x y w h (0 + m)) = true := by
    intro m hm
    rw [Nat.zero_add]
    exact htaken m hm
  have h2 : ex (candidateName x y w h (0 + n)) = false := by
    rw [Nat.zero_add]
    exact hfree
  have := fixedSaveNameAux_finds ex x y w h n fuel 0 hfuel h1 h2
  rwa [Nat.zero_add] at this

/-- C9 witness: with capture_5_5_100x100.png and
capture_5_5_100x100_1.png existing, the loop picks the candidate with
suffix _2. -/
theorem C9_fixed_location_naming_witness :
    fixedSaveName takenNames 5 5 100 100 3 = candidateName 5 5 100 100 2 :=
  (C9_fixed_location_naming takenNames 5 5 100 100 2 3
    (by decide) (by decide) (by decide)).1

/-- C5: for a selection rectangle lying entirely inside one monitor
whose snapshot buffer has the same size as its geometry, the composite
equals the exact crop of that monitor's buffer at offset
(rect.x - geometry.x, rect.y - geometry.y), pixel for pixel. -/
theorem C5_single_screen_exact_crop (r : Rect) (s : Screen) (buf : Buffer)
    (hbuf : s.buffer = some buf)
    (hbw : buf.width = s.geometry.w) (hbh : buf.height = s.geometry.h)
    (hx1 : s.geometry.x ≤ r.x) (hy1 : s.geometry.y ≤ r.y)
    (hx2 : r.x + r.w ≤ s.geometry.x + s.geometry.w)
    (hy2 : r.y + r.h ≤ s.geometry.y + s.geometry.h)
    (hw : 0 < r.w) (hh : 0 < r.h) :
    ∀ px py : Int, 0 ≤ px → px < r.w → 0 ≤ py → py < r.h →
      compose r [s] px py =
        some (buf.pix (r.x - s.geometry.x + px) (r.y - s.geometry.y + py)) := by
  intro px py hpx1 hpx2 hpy1 hpy2
  have hcomp : compose r [s] = compositeStep r transparentImage s := rfl
  rw [hcomp]
  have hov : r.intersected s.geometry = ⟨r.x, r.y, r.w, r.h⟩ := by
    simp only [Rect.intersected, Rect.mk.injEq]
    refine ⟨?_, ?_, ?_, ?_⟩ <;> omega
  simp only [compositeStep, hbuf, hov]
  rw [if_neg (by simp only [Rect.isEmpty, Bool.or_eq_true, decide_eq_true_eq]; omega)]
  rw [if_pos (by refine ⟨?_, ?_, ?_, ?_⟩ <;> omega)]
  simp only [blit]
  rw [if_pos (by refine ⟨?_, ?_, ?_, ?_⟩ <;> omega)]
  refine congrArg some ?_
  have e1 : r.x - s.geometry.x + (px - (r.x - r.x)) = r.x - s.geometry.x + px := by
    omega
  have e2 : r.y - s.geometry.y + (py - (r.y - r.y)) = r.y - s.geometry.y + py := by
    omega
  rw [e1, e2]

/-- C5 witness: the composite of sampleRect over sampleScreen, at the
concrete point (3, 4), is the corresponding buffer pixel. -/
theorem C5_single_screen_exact_crop_witness :
    compose sampleRect [sampleScreen] 3 4 =
      some (sampleBuffer.pix (sampleRect.x - sampleScreen.geometry.x + 3)
        (sampleRect.y - sampleScreen.geometry.y + 4)) :=
  C5_single_screen_exact_crop sampleRect sampleScreen sampleBuffer rfl rfl rfl
    (by decide) (by decide) (by decide) (by decide) (by decide) (by decide)
    3 4 (by decide) (by decide) (by decide) (by decide)

/-- C6: a monitor whose computed source offsets fail validation
contributes nothing — removing it from the screen list leaves the
composite unchanged, so the other monitors' contributions are exactly
what they would be were it absent and the composite still produces an
image; and whenever validation passes, every buffer coordinate the
blit reads lies inside the buffer bounds, so no out-of-bounds read
occurs. -/
theorem C6_invalid_source_isolated :
    (∀ (r : Rect) (l1 l2 : List Screen) (s : Screen) (buf : Buffer),
      s.buffer = some buf →
      ¬srcValid buf ((r.intersected s.geometry).x - s.geometry.x)
          ((r.intersected s.geometry).y - s.geometry.y)
          (r.intersected s.geometry).w (r.intersected s.geometry).h →
      compose r (l1 ++ s :: l2) = compose r (l1 ++ l2)) ∧
    (∀ (r : Rect) (s : Screen) (buf : Buffer),
      s.buffer = some buf →
      srcValid buf ((r.intersected s.geometry).x - s.geometry.x)
          ((r.intersected s.geometry).y - s.geometry.y)
          (r.intersected s.geometry).w (r.intersected s.geometry).h →
      ∀ t u : Int, 0 ≤ t → t < (r.intersected s.geometry).w →
        0 ≤ u → u < (r.intersected s.geometry).h →
        0 ≤ (r.intersected s.geometry).x - s.geometry.x + t ∧
        (r.intersected s.geometry).x - s.geometry.x + t < buf.width ∧
        0 ≤ (r.intersected s.geometry).y - s.geometry.y + u ∧
        (r.intersected s.geometry).y - s.geometry.y + u < buf.height) := by
  constructor
  · intro r l1 l2 s buf hbuf hval
    have hskip : ∀ img : Image, compositeStep r img s = img := by
      intro img
      simp only [compositeStep, hbuf]
      by_cases hemp : (r.intersected s.geometry).isEmpty = true
      · rw [if_pos hemp]
      · rw [if_neg hemp, if_neg hval]
    simp only [compose, List.foldl_append, List.foldl_cons, hskip]
  · intro r s buf hbuf hval t u ht1 ht2 hu1 hu2
    obtain ⟨v1, v2, v3, v4⟩ := hval
    refine ⟨?_, ?_, ?_, ?_⟩ <;> omega

/-- C6 witness: the screen whose buffer is smaller than its geometry
fails validation for a 20 by 20 selection and is skipped, leaving the
composite equal to the empty-list composite. -/
theorem C6_invalid_source_isolated_witness :
    compose ⟨0, 0, 20, 20⟩ ([] ++ shortBufferScreen :: []) =
      compose ⟨0, 0, 20, 20⟩ ([] ++ []) :=
  C6_invalid_source_isolated.1 ⟨0, 0, 20, 20⟩ [] [] shortBufferScreen
    ⟨10, 10, fun _ _ => 0⟩ rfl (by decide)

/-- Helper: a screen that writes the output pixel at (px, py) makes
compositeStep produce its stepValue there. -/
theorem stepWrites_step_eq (r : Rect) (s : Screen) (img : Image)
    (px py : Int) (h : stepWrites r s px py) :
    compositeStep r img s px py = stepValue r s px py := by
  cases hbuf : s.buffer with
  | none => simp only [stepWrites, hbuf] at h
  | some buf =>
    simp only [stepWrites, hbuf] at h
    obtain ⟨hemp, hval, hx1, hx2, hy1, hy2⟩ := h
    simp only [compositeStep, stepValue, hbuf]
    rw [if_neg (by simp [hemp]), if_pos hval]
    simp only [blit]
    rw [if_pos ⟨hx1, hx2, hy1, hy2⟩]

/-- Helper: a screen that does not write the output pixel at (px, py)
leaves the image unchanged there. -/
theorem step_eq_of_not_writes (r : Rect) (s : Screen) (img : Image)
    (px py : Int) (h : ¬stepWrites r s px py) :
    compositeStep r img s px py = img px py := by
  cases hbuf : s.buffer with
  | none => simp only [compositeStep, hbuf]
  | some buf =>
    simp only [compositeStep, hbuf]
    by_cases hemp : (r.intersected s.geometry).isEmpty = true
    · rw [if_pos hemp]
    · rw [if_neg hemp]
      by_cases hval : srcValid buf
          ((r.intersected s.geometry).x - s.geometry.x)
          ((r.intersected s.geometry).y - s.geometry.y)
          (r.intersected s.geometry).w (r.intersected s.geometry).h
      · rw [if_pos hval]
        simp only [blit]
        rw [if_neg]
        rintro ⟨c1, c2, c3, c4⟩
        apply h
        simp only [stepWrites, hbuf]
        exact ⟨by simpa using hemp, hval, c1, c2, c3, c4⟩
      · rw [if_neg hval]

/-- Helper: folding the compositing step over a list in which no
screen writes (px, py) leaves the pixel unchanged. -/
theorem foldl_no_writer (r : Rect) (px py : Int) :
    ∀ (l : List Screen) (img : Image),
      (∀ s ∈ l, ¬stepWrites r s px py) →
      (l.foldl (compositeStep r) img) px py = img px py := by
  intro l
  induction l with
  | nil => intro img _; rfl
  | cons a t ih =>
    intro img h
    rw [List.foldl_cons]
    rw [ih (compositeStep r img a) (fun s hs => h s (List.mem_cons_of_mem a hs))]
    exact step_eq_of_not_writes r a img px py (h a (List.mem_cons_self a t))

/-- Helper: when some screen of the list writes (px, py) and every
writer of the list writes the same value v, the fold produces v. -/
theorem foldl_writer_value (r : Rect) (px py : Int) (v : Option Nat) :
    ∀ (l : List Screen) (img : Image),
      (∀ s ∈ l, stepWrites r s px py → stepValue r s px py = v) →
      (∃ s ∈ l, stepWrites r s px py) →
      (l.foldl (compositeStep r) img) px py = v := by
  intro l
  induction l with
  | nil =>
    intro img _ hex
    obtain ⟨s, hs, _⟩ := hex
    exact absurd hs (List.not_mem_nil s)
  | cons a t ih =>
    intro img hval hex
    rw [List.foldl_cons]
    by_cases hex2 : ∃ s ∈ t, stepWrites r s px py
    · exact ih (compositeStep r img a)
        (fun s hs hw => hval s (List.mem_cons_of_mem a hs) hw) hex2
    · have ha : stepWrites r a px py := by
        obtain ⟨s, hs, hw⟩ := hex
        rcases List.mem_cons.mp hs with heq | hmem
        · exact heq ▸ hw
        · exact absurd ⟨s, hmem, hw⟩ hex2
      push_neg at hex2
      rw [foldl_no_writer r px py t (compositeStep r img a) hex2]
      rw [stepWrites_step_eq r a img px py ha]
      exact hval a (List.mem_cons_self a t) ha

/-- Helper: a screen that writes (px, py) contains the corresponding
global point in its geometry. -/
theorem stepWrites_containsPt (r : Rect) (s : Screen) (px py : Int)
    (h : stepWrites r s px py) :
    s.geometry.containsPt (r.x + px) (r.y + py) := by
  cases hbuf : s.buffer with
  | none => simp only [stepWrites, hbuf] at h
  | some buf =>
    simp only [stepWrites, hbuf] at h
    obtain ⟨hemp, _, hx1, hx2, hy1, hy2⟩ := h
    simp only [Rect.isEmpty, Bool.or_eq_false_iff,
      decide_eq_false_iff_not] at hemp
    simp only [Rect.intersected] at hx1 hx2 hy1 hy2 hemp
    unfold Rect.containsPt
    refine ⟨?_, ?_, ?_, ?_⟩ <;> omega

/-- Helper: two rectangles sharing a point have a nonempty
intersection. -/
theorem containsPt_intersect_nonempty (a b : Rect) (X Y : Int)
    (ha : a.containsPt X Y) (hb : b.containsPt X Y) :
    (a.intersected b).isEmpty = false := by
  obtain ⟨ha1, ha2, ha3, ha4⟩ := ha
  obtain ⟨hb1, hb2, hb3, hb4⟩ := hb
  simp only [Rect.intersected, Rect.isEmpty, Bool.or_eq_false_iff,
    decide_eq_false_iff_not]
  refine ⟨?_, ?_⟩ <;> omega

/-- Helper: geometric disjointness of screens is symmetric. -/
theorem screenDisjoint_symm :
    Symmetric (fun a b : Screen =>
      (a.geometry.intersected b.geometry).isEmpty = true) := by
  intro a b h
  simp only [Rect.intersected, Rect.isEmpty, Bool.or_eq_true,
    decide_eq_true_eq] at h ⊢
  omega

/-- C7: for pairwise non-overlapping monitor geometries, the
composited output image is the same for every iteration order of the
monitors. -/
theorem C7_compose_perm_invariant (r : Rect) (l l2 : List Screen)
    (hperm : l.Perm l2)
    (hdisj : l.Pairwise (fun a b =>
      (a.geometry.intersected b.geometry).isEmpty = true)) :
    compose r l = compose r l2 := by
  funext px py
  by_cases hex : ∃ s ∈ l, stepWrites r s px py
  · obtain ⟨s0, hs0, hw0⟩ := hex
    have huniq : ∀ t ∈ l, stepWrites r t px py →
        stepValue r t px py = stepValue r s0 px py := by
      intro t ht hwt
      by_cases heq : t = s0
      · rw [heq]
      · exfalso
        have hP := List.Pairwise.forall screenDisjoint_symm hdisj ht hs0 heq
        have h1 := stepWrites_containsPt r t px py hwt
        have h2 := stepWrites_containsPt r s0 px py hw0
        have h3 := containsPt_intersect_nonempty t.geometry s0.geometry _ _ h1 h2
        rw [hP] at h3
        exact absurd h3 (by decide)
    have h1 : compose r l px py = stepValue r s0 px py :=
      foldl_writer_value r px py (stepValue r s0 px py) l transparentImage
        huniq ⟨s0, hs0, hw0⟩
    have h2 : compose r l2 px py = stepValue r s0 px py :=
      foldl_writer_value r px py (stepValue r s0 px py) l2 transparentImage
        (fun t ht hwt => huniq t (hperm.mem_iff.mpr ht) hwt)
        ⟨s0, hperm.mem_iff.mp hs0, hw0⟩
    rw [h1, h2]
  · have hex2 : ¬∃ s ∈ l2, stepWrites r s px py :=
      fun ⟨s, hs, hw⟩ => hex ⟨s, hperm.mem_iff.mpr hs, hw⟩
    push_neg at hex hex2
    have h1 : compose r l px py = transparentImage px py :=
      foldl_no_writer r px py l transparentImage hex
    have h2 : compose r l2 px py = transparentImage px py :=
      foldl_no_writer r px py l2 transparentImage hex2
    rw [h1, h2]

/-- C7 witness: the two concrete disjoint screens give the same
composite in either order for the spanning rectangle. -/
theorem C7_compose_perm_invariant_witness :
    compose spanRect [sampleScreen, secondScreen] =
      compose spanRect [secondScreen, sampleScreen] :=
  C7_compose_perm_invariant spanRect [sampleScreen, secondScreen]
    [secondScreen, sampleScreen]
    (List.Perm.swap secondScreen sampleScreen [])
    (by decide)

end KuduGrab
